import Mathlib

/-!
Verification of the pure-pursuit waypoint-following core of the
`sdvp_qtcommon` repository, shallowly embedded in Lean 4.

C++ `double` values are modelled as real numbers; the trigonometric
functions of `<cmath>` are modelled by their Mathlib counterparts.
The embedding covers:

* `TruckState::getCurvatureToPointInVehicleFrame` and
  `TruckState::getCurvatureWithTrailer` (src/vehicles/truckstate.cpp),
* the default-initialized follower state `WayPointFollowerState` and the
  timer-period members of `PurepursuitWaypointFollower`
  (src/autopilot/purepursuitwaypointfollower.h),
* the configuration surface declared by the follower headers,
* `MavsdkVehicleConnection::setHomeLlh`
  (src/communication/vehicleconnections/mavsdkvehicleconnection.cpp).
-/

/-- Qt's `QPointF`: a 2D point with real coordinates. -/
structure QPointF where
  x : ℝ
  y : ℝ

/-- Minimal model of `PosPoint` as used by the embedded code: position,
height and yaw (yaw in degrees). A default-constructed `PosPoint` is the
origin with zero yaw, as documented by the comment in
`TruckState::getCurvatureWithTrailer` ("vehiclePos is 0,0 with 0 rad yaw"). -/
structure PosPoint where
  x : ℝ := 0
  y : ℝ := 0
  height : ℝ := 0
  yaw : ℝ := 0

/-- The default-constructed `const PosPoint vehiclePos;` of
`TruckState::getCurvatureWithTrailer`: the origin with zero yaw. -/
def vehicleOrigin : PosPoint := {}

/-- The C `atan2(y, x)` function: angle of the point `(x, y)` in `(-pi, pi]`,
by the usual case split of the C standard. -/
noncomputable def atan2 (y x : ℝ) : ℝ :=
  if 0 < x then Real.arctan (y / x)
  else if x < 0 ∧ 0 ≤ y then Real.arctan (y / x) + Real.pi
  else if x < 0 then Real.arctan (y / x) - Real.pi
  else if 0 < y then Real.pi / 2
  else if y < 0 then -(Real.pi / 2)
  else 0

/-- Trailer wheelbase in meters, the local constant `l2 = 0.715` of
`TruckState::getCurvatureWithTrailer` (truckstate.cpp line 44). -/
def l2 : ℝ := 0.715

/-- Dynamic state of `TruckState` read by the curvature functions:
the trailer flag `mHasTrailer`, `getSpeed()`, `getTrailerAngleRadians()`
and `getAutopilotRadius()`. -/
structure TruckState where
  mHasTrailer : Bool
  speed : ℝ
  trailerAngleRadians : ℝ
  autopilotRadius : ℝ

/-- Forward-motion trailer law, the body of the `getSpeed() > 0` branch of
`TruckState::getCurvatureWithTrailer` (truckstate.cpp lines 51-53) as a
function of the measured trailer angle and the bearing error `theta_err`:
`k*(measured - atan(2*l2*sin(theta_err))) - sin(measured)/l2` with gain
`k = 1`. -/
noncomputable def forwardTrailerCurvature (measuredTrailerAngle theta_err : ℝ) : ℝ :=
  let desired_hitch_angle := Real.arctan (2 * l2 * Real.sin theta_err)
  let k : ℝ := 1
  k * (measuredTrailerAngle - desired_hitch_angle) - Real.sin measuredTrailerAngle / l2

/-- Reverse-motion trailer law, the body of the `else` branch of
`TruckState::getCurvatureWithTrailer` (truckstate.cpp lines 66-68) as a
function of the autopilot radius, the measured trailer angle and the
bearing error `theta_err`:
`k*(measured - atan(2*l2*sin(theta_err)/R)) - sin(measured)/l2` with gain
`k = -2.5`. -/
noncomputable def reverseTrailerCurvature (autopilotRadius measuredTrailerAngle theta_err : ℝ) : ℝ :=
  let desired_hitch_angle := Real.arctan (2 * l2 * Real.sin theta_err / autopilotRadius)
  let k : ℝ := -2.5
  k * (measuredTrailerAngle - desired_hitch_angle) - Real.sin measuredTrailerAngle / l2

/-- `TruckState::getCurvatureWithTrailer` (truckstate.cpp lines 36-70).
The source default-constructs a local `const PosPoint vehiclePos;`; here the
vehicle pose is an explicit argument so that the dependence of `theta_err`
on the pose is visible in the statements; the source's local value is
`vehicleOrigin`, which the caller `getCurvatureToPointInVehicleFrame`
passes. -/
noncomputable def TruckState.getCurvatureWithTrailer
    (st : TruckState) (vehiclePos : PosPoint) (point : QPointF) : ℝ :=
  let currYaw_rad := vehiclePos.yaw * Real.pi / 180
  let measuredTrailerAngle := st.trailerAngleRadians
  if 0 < st.speed then
    let pointInVehicleFrameX := point.x - vehiclePos.x
    let pointInVehicleFrameY := point.y - vehiclePos.y
    let theta_err := atan2 pointInVehicleFrameY pointInVehicleFrameX - currYaw_rad
    let desired_hitch_angle := Real.arctan (2 * l2 * Real.sin theta_err)
    let k : ℝ := 1
    k * (measuredTrailerAngle - desired_hitch_angle) - Real.sin measuredTrailerAngle / l2
  else
    let trailerYaw := currYaw_rad - measuredTrailerAngle
    let delta_x := l2 * Real.cos trailerYaw
    let delta_y := l2 * Real.sin trailerYaw
    let trailerPositionx := vehiclePos.x - delta_x
    let trailerPositiony := vehiclePos.y - delta_y
    let pointInTrailerFrameX := point.x - trailerPositionx
    let pointInTrailerFrameY := point.y - trailerPositiony
    let theta_err := atan2 pointInTrailerFrameY pointInTrailerFrameX - trailerYaw
    let desired_hitch_angle := Real.arctan (2 * l2 * Real.sin theta_err / st.autopilotRadius)
    let k : ℝ := -2.5
    k * (measuredTrailerAngle - desired_hitch_angle) - Real.sin measuredTrailerAngle / l2

/-- `TruckState::getCurvatureToPointInVehicleFrame` (truckstate.cpp lines
23-34): with a trailer, delegate to `getCurvatureWithTrailer` (at the
default-constructed vehicle pose); without, pure pursuit
`-(2*y)/(x^2 + y^2)`. -/
noncomputable def TruckState.getCurvatureToPointInVehicleFrame
    (st : TruckState) (point : QPointF) : ℝ :=
  if st.mHasTrailer then st.getCurvatureWithTrailer vehicleOrigin point
  else
    let distanceSquared := point.x ^ 2 + point.y ^ 2
    let steeringAngleProportional := (2 * point.y) / distanceSquared;
    -steeringAngleProportional

/-- A concrete trailer-less truck state used to instantiate theorems. -/
def sampleTruckNoTrailer : TruckState :=
  { mHasTrailer := false, speed := 1, trailerAngleRadians := 0.3, autopilotRadius := 1 }

/-- C1: without a trailer, `getCurvatureToPointInVehicleFrame` returns
exactly `-(2*y / (x^2 + y^2))` for every point other than the origin, and
the denominator vanishes exactly at the origin (the only singularity). -/
theorem curvatureNoTrailer_formula (st : TruckState) (p : QPointF)
    (ht : st.mHasTrailer = false) :
    (p ≠ ⟨0, 0⟩ →
      st.getCurvatureToPointInVehicleFrame p = -(2 * p.y / (p.x ^ 2 + p.y ^ 2))) ∧
    (p.x ^ 2 + p.y ^ 2 = 0 ↔ p = ⟨0, 0⟩) := by
  constructor
  · intro _
    simp [TruckState.getCurvatureToPointInVehicleFrame, ht]
  · constructor
    · intro h
      have hx : p.x = 0 := by nlinarith [sq_nonneg p.x, sq_nonneg p.y]
      have hy : p.y = 0 := by nlinarith [sq_nonneg p.x, sq_nonneg p.y]
      cases p
      simp_all
    · rintro rfl
      norm_num

/-- Witness for C1 at the point `(3, 4)`. -/
theorem curvatureNoTrailer_formula_witness :
    ((⟨3, 4⟩ : QPointF) ≠ ⟨0, 0⟩ →
      sampleTruckNoTrailer.getCurvatureToPointInVehicleFrame ⟨3, 4⟩ =
        -(2 * (4 : ℝ) / ((3 : ℝ) ^ 2 + (4 : ℝ) ^ 2))) ∧
    (((3 : ℝ) ^ 2 + (4 : ℝ) ^ 2 = 0) ↔ (⟨3, 4⟩ : QPointF) = ⟨0, 0⟩) :=
  curvatureNoTrailer_formula sampleTruckNoTrailer ⟨3, 4⟩ rfl

/-- C5: without a trailer, a goal on the vehicle's forward axis (`y = 0`,
`x > 0`) gives curvature exactly 0. -/
theorem curvatureForwardAxis_zero (st : TruckState) (x : ℝ)
    (hx : 0 < x) (ht : st.mHasTrailer = false) :
    st.getCurvatureToPointInVehicleFrame ⟨x, 0⟩ = 0 := by
  simp [TruckState.getCurvatureToPointInVehicleFrame, ht]

/-- Witness for C5 at `x = 3`. -/
theorem curvatureForwardAxis_zero_witness :
    (0 : ℝ) < 3 ∧ sampleTruckNoTrailer.getCurvatureToPointInVehicleFrame ⟨3, 0⟩ = 0 :=
  ⟨by norm_num, curvatureForwardAxis_zero sampleTruckNoTrailer 3 (by norm_num) rfl⟩

/-- A concrete trailer-equipped truck state moving forward. -/
def sampleTruckForward : TruckState :=
  { mHasTrailer := true, speed := 1, trailerAngleRadians := 0.2, autopilotRadius := 2 }

/-- A concrete trailer-equipped truck state at speed exactly zero. -/
def sampleTruckZeroSpeed : TruckState :=
  { mHasTrailer := true, speed := 0, trailerAngleRadians := 0.2, autopilotRadius := 2 }

/-- A concrete trailer-equipped truck state moving in reverse. -/
def sampleTruckReverse : TruckState :=
  { mHasTrailer := true, speed := -1, trailerAngleRadians := 0.2, autopilotRadius := 2 }

/-- C2: moving forward (speed > 0) with a trailer, the commanded curvature
is `k*(measuredHitch - desiredHitch) - sin(measuredHitch)/L` with gain
`k = 1` and `desiredHitch = atan(2*L*sin(theta_err))` (no radius in the
denominator), where `theta_err` is the bearing to the goal minus the
vehicle's heading, both from the vehicle's pose, and `L = l2` is the
trailer wheelbase. -/
theorem curvatureWithTrailer_forward (st : TruckState) (vehiclePos : PosPoint)
    (p : QPointF) (h : 0 < st.speed) :
    st.getCurvatureWithTrailer vehiclePos p =
      1 * (st.trailerAngleRadians -
          Real.arctan (2 * l2 * Real.sin
            (atan2 (p.y - vehiclePos.y) (p.x - vehiclePos.x) -
              vehiclePos.yaw * Real.pi / 180)))
        - Real.sin st.trailerAngleRadians / l2 := by
  simp only [TruckState.getCurvatureWithTrailer, if_pos h]

/-- Witness for C2 at a concrete forward-moving state and goal. -/
theorem curvatureWithTrailer_forward_witness :
    sampleTruckForward.getCurvatureWithTrailer vehicleOrigin ⟨3, 4⟩ =
      1 * (sampleTruckForward.trailerAngleRadians -
          Real.arctan (2 * l2 * Real.sin
            (atan2 ((4 : ℝ) - vehicleOrigin.y) ((3 : ℝ) - vehicleOrigin.x) -
              vehicleOrigin.yaw * Real.pi / 180)))
        - Real.sin sampleTruckForward.trailerAngleRadians / l2 :=
  curvatureWithTrailer_forward sampleTruckForward vehicleOrigin ⟨3, 4⟩ (by norm_num [sampleTruckForward])

/-- C3: moving in reverse (speed < 0) with a trailer, the commanded
curvature is `k*(measuredHitch - desiredHitch) - sin(measuredHitch)/L`
with gain `k = -2.5` and `desiredHitch = atan(2*L*sin(theta_err)/R)`,
where `R` is the autopilot (pursuit) radius and `theta_err` is the bearing
to the goal minus the trailer's heading; the trailer pose is obtained by
projecting backward from the vehicle along the hitch by `L` using the
measured hitch angle. -/
theorem curvatureWithTrailer_reverse (st : TruckState) (vehiclePos : PosPoint)
    (p : QPointF) (h : st.speed < 0) (hR : 0 < st.autopilotRadius) :
    st.getCurvatureWithTrailer vehiclePos p =
      (-2.5) * (st.trailerAngleRadians -
          Real.arctan (2 * l2 * Real.sin
            (atan2
              (p.y - (vehiclePos.y -
                l2 * Real.sin (vehiclePos.yaw * Real.pi / 180 - st.trailerAngleRadians)))
              (p.x - (vehiclePos.x -
                l2 * Real.cos (vehiclePos.yaw * Real.pi / 180 - st.trailerAngleRadians))) -
              (vehiclePos.yaw * Real.pi / 180 - st.trailerAngleRadians))
            / st.autopilotRadius))
        - Real.sin st.trailerAngleRadians / l2 := by
  simp only [TruckState.getCurvatureWithTrailer, if_neg (not_lt.mpr h.le)]

/-- Witness for C3 at a concrete reversing state and goal. -/
theorem curvatureWithTrailer_reverse_witness :
    sampleTruckReverse.getCurvatureWithTrailer vehicleOrigin ⟨3, 4⟩ =
      (-2.5) * (sampleTruckReverse.trailerAngleRadians -
          Real.arctan (2 * l2 * Real.sin
            (atan2
              ((4 : ℝ) - (vehicleOrigin.y -
                l2 * Real.sin (vehicleOrigin.yaw * Real.pi / 180 - sampleTruckReverse.trailerAngleRadians)))
              ((3 : ℝ) - (vehicleOrigin.x -
                l2 * Real.cos (vehicleOrigin.yaw * Real.pi / 180 - sampleTruckReverse.trailerAngleRadians))) -
              (vehicleOrigin.yaw * Real.pi / 180 - sampleTruckReverse.trailerAngleRadians))
            / sampleTruckReverse.autopilotRadius))
        - Real.sin sampleTruckReverse.trailerAngleRadians / l2 :=
  curvatureWithTrailer_reverse sampleTruckReverse vehicleOrigin ⟨3, 4⟩
    (by norm_num [sampleTruckReverse]) (by norm_num [sampleTruckReverse])

/-- C6: the forward-motion branch of the trailer law is taken exactly when
speed is strictly positive; at speed zero or negative the reverse-motion
law applies (trailer-frame bearing error, gain `-2.5`, pursuit radius in
the desired-hitch denominator). -/
theorem trailerBranch_selection (st : TruckState) (vehiclePos : PosPoint) (p : QPointF) :
    (0 < st.speed →
      st.getCurvatureWithTrailer vehiclePos p =
        forwardTrailerCurvature st.trailerAngleRadians
          (atan2 (p.y - vehiclePos.y) (p.x - vehiclePos.x) -
            vehiclePos.yaw * Real.pi / 180)) ∧
    (st.speed ≤ 0 →
      st.getCurvatureWithTrailer vehiclePos p =
        reverseTrailerCurvature st.autopilotRadius st.trailerAngleRadians
          (atan2
            (p.y - (vehiclePos.y -
              l2 * Real.sin (vehiclePos.yaw * Real.pi / 180 - st.trailerAngleRadians)))
            (p.x - (vehiclePos.x -
              l2 * Real.cos (vehiclePos.yaw * Real.pi / 180 - st.trailerAngleRadians))) -
            (vehiclePos.yaw * Real.pi / 180 - st.trailerAngleRadians))) := by
  constructor
  · intro h
    simp only [TruckState.getCurvatureWithTrailer, if_pos h, forwardTrailerCurvature]
  · intro h
    simp only [TruckState.getCurvatureWithTrailer, if_neg (not_lt.mpr h), reverseTrailerCurvature]

/-- Witness for C6: at speed exactly zero the reverse-motion law applies,
and at a strictly positive speed the forward-motion law applies. -/
theorem trailerBranch_selection_witness :
    (sampleTruckZeroSpeed.getCurvatureWithTrailer vehicleOrigin ⟨3, 4⟩ =
      reverseTrailerCurvature sampleTruckZeroSpeed.autopilotRadius
        sampleTruckZeroSpeed.trailerAngleRadians
        (atan2
          ((4 : ℝ) - (vehicleOrigin.y -
            l2 * Real.sin (vehicleOrigin.yaw * Real.pi / 180 - sampleTruckZeroSpeed.trailerAngleRadians)))
          ((3 : ℝ) - (vehicleOrigin.x -
            l2 * Real.cos (vehicleOrigin.yaw * Real.pi / 180 - sampleTruckZeroSpeed.trailerAngleRadians))) -
          (vehicleOrigin.yaw * Real.pi / 180 - sampleTruckZeroSpeed.trailerAngleRadians))) ∧
    (sampleTruckForward.getCurvatureWithTrailer vehicleOrigin ⟨3, 4⟩ =
      forwardTrailerCurvature sampleTruckForward.trailerAngleRadians
        (atan2 ((4 : ℝ) - vehicleOrigin.y) ((3 : ℝ) - vehicleOrigin.x) -
          vehicleOrigin.yaw * Real.pi / 180)) :=
  ⟨(trailerBranch_selection sampleTruckZeroSpeed vehicleOrigin ⟨3, 4⟩).2 (by norm_num [sampleTruckZeroSpeed]),
   (trailerBranch_selection sampleTruckForward vehicleOrigin ⟨3, 4⟩).1 (by norm_num [sampleTruckForward])⟩

/-- Continuity of the forward-motion trailer law in the bearing error. -/
theorem forwardTrailerCurvature_continuous (measured : ℝ) :
    Continuous (fun theta_err => forwardTrailerCurvature measured theta_err) := by
  unfold forwardTrailerCurvature
  exact (continuous_const.mul (continuous_const.sub
    (Real.continuous_arctan.comp (continuous_const.mul Real.continuous_sin)))).sub
    continuous_const

/-- Continuity of the reverse-motion trailer law in the bearing error. -/
theorem reverseTrailerCurvature_continuous (R measured : ℝ) :
    Continuous (fun theta_err => reverseTrailerCurvature R measured theta_err) := by
  unfold reverseTrailerCurvature
  exact (continuous_const.mul (continuous_const.sub
    (Real.continuous_arctan.comp
      ((continuous_const.mul Real.continuous_sin).div_const R)))).sub
    continuous_const

/-- Value of the forward-motion trailer law at zero bearing error. -/
theorem forwardTrailerCurvature_at_zero (measured : ℝ) :
    forwardTrailerCurvature measured 0 = measured - Real.sin measured / l2 := by
  simp [forwardTrailerCurvature]

/-- Value of the reverse-motion trailer law at zero bearing error. -/
theorem reverseTrailerCurvature_at_zero (R measured : ℝ) :
    reverseTrailerCurvature R measured 0 = (-2.5) * measured - Real.sin measured / l2 := by
  simp [reverseTrailerCurvature]

/-- C4 counterexample: in the forward branch with measured hitch angle
`pi/2`, the commanded curvature does not tend to `-sin(measuredHitch)/L`
as the bearing error tends to 0 (its limit is
`pi/2 - sin(pi/2)/L`, which differs by `pi/2`). -/
theorem trailerLawLimit_counterexample :
    ¬ Filter.Tendsto (fun theta_err => forwardTrailerCurvature (Real.pi / 2) theta_err)
        (nhds 0) (nhds (-(Real.sin (Real.pi / 2) / l2))) := by
  intro hcontra
  have hcont : Filter.Tendsto (fun theta_err => forwardTrailerCurvature (Real.pi / 2) theta_err)
      (nhds 0) (nhds (Real.pi / 2 - Real.sin (Real.pi / 2) / l2)) :=
    (forwardTrailerCurvature_continuous (Real.pi / 2)).tendsto' 0 _
      (forwardTrailerCurvature_at_zero (Real.pi / 2))
  have heq := tendsto_nhds_unique hcontra hcont
  have hpi := Real.pi_pos
  linarith

/-- C4 amended: as the bearing error tends to 0, the desired hitch angle
tends to 0 in both branches, and the commanded curvature tends to
`k*measuredHitch - sin(measuredHitch)/L`, the gain `k` times the measured
hitch angle plus the hitch-relaxation term (`k = 1` forward, `k = -2.5`
reverse); the bearing-error contribution to the desired hitch angle
vanishes in the limit, but the `k*measuredHitch` term remains. -/
theorem trailerLawLimit (measured R : ℝ) (hR : 0 < R) :
    Filter.Tendsto (fun theta_err => Real.arctan (2 * l2 * Real.sin theta_err))
      (nhds 0) (nhds 0) ∧
    Filter.Tendsto (fun theta_err => forwardTrailerCurvature measured theta_err)
      (nhds 0) (nhds (measured - Real.sin measured / l2)) ∧
    Filter.Tendsto (fun theta_err => Real.arctan (2 * l2 * Real.sin theta_err / R))
      (nhds 0) (nhds 0) ∧
    Filter.Tendsto (fun theta_err => reverseTrailerCurvature R measured theta_err)
      (nhds 0) (nhds ((-2.5) * measured - Real.sin measured / l2)) := by
  refine ⟨?_, ?_, ?_, ?_⟩
  · exact (Real.continuous_arctan.comp (continuous_const.mul Real.continuous_sin)).tendsto' 0 _
      (by simp)
  · exact (forwardTrailerCurvature_continuous measured).tendsto' 0 _
      (forwardTrailerCurvature_at_zero measured)
  · exact (Real.continuous_arctan.comp
      ((continuous_const.mul Real.continuous_sin).div_const R)).tendsto' 0 _ (by simp)
  · exact (reverseTrailerCurvature_continuous R measured).tendsto' 0 _
      (reverseTrailerCurvature_at_zero R measured)

/-- Witness for the amended C4 at measured hitch angle 1 and radius 1. -/
theorem trailerLawLimit_witness :
    (0 : ℝ) < 1 ∧
    (Filter.Tendsto (fun theta_err => Real.arctan (2 * l2 * Real.sin theta_err))
      (nhds 0) (nhds 0) ∧
    Filter.Tendsto (fun theta_err => forwardTrailerCurvature 1 theta_err)
      (nhds 0) (nhds (1 - Real.sin 1 / l2)) ∧
    Filter.Tendsto (fun theta_err => Real.arctan (2 * l2 * Real.sin theta_err / 1))
      (nhds 0) (nhds 0) ∧
    Filter.Tendsto (fun theta_err => reverseTrailerCurvature 1 1 theta_err)
      (nhds 0) (nhds ((-2.5) * 1 - Real.sin 1 / l2))) :=
  ⟨by norm_num, trailerLawLimit 1 1 (by norm_num)⟩

/-- The state-machine lifecycle states, the enum `WayPointFollowerSTMstates`
of purepursuitwaypointfollower.h line 22. -/
inductive WayPointFollowerSTMstates
  | NONE
  | FOLLOW_POINT_FOLLOWING
  | FOLLOW_POINT_WAITING
  | FOLLOW_ROUTE_INIT
  | FOLLOW_ROUTE_GOTO_BEGIN
  | FOLLOW_ROUTE_FOLLOWING
  | FOLLOW_ROUTE_FINISHED
deriving DecidableEq

/-- The struct `WayPointFollowerState` of purepursuitwaypointfollower.h
lines 23-38, with the in-class member initializers of the source as field
defaults. `currentWaypointIndex` has no initializer in the source (an
indeterminate `int`), so it carries no default here. -/
structure WayPointFollowerState where
  stmState : WayPointFollowerSTMstates := WayPointFollowerSTMstates.NONE
  currentGoal : PosPoint := {}
  currentWaypointIndex : ℤ
  purePursuitRadius : ℝ := 1.0
  numWaypointsLookahead : ℤ := 8
  repeatRoute : Bool := false
  overrideAltitude : ℝ := 0.0
  currentFollowPointInVehicleFrame : PosPoint := {}
  followPointSpeed : ℝ := 1.0
  followPointDistance : ℝ := 3.0
  followPointTimedOut : Bool := true

/-- The members of `PurepursuitWaypointFollower` relevant to its timers and
state (purepursuitwaypointfollower.h lines 88-101): the constant
follow-point timeout `mFollowPointTimeout_ms = 1000`, the follower state
`mCurrentState`, and the tick period `mUpdateStatePeriod_ms = 50`. -/
structure PurepursuitWaypointFollower where
  mFollowPointTimeout_ms : ℕ := 1000
  mCurrentState : WayPointFollowerState
  mUpdateStatePeriod_ms : ℕ := 50

/-- A freshly constructed follower: every member takes its in-class
initializer; the uninitialized `currentWaypointIndex` is an arbitrary
junk value `uninitIndex`. -/
def mkPurepursuitWaypointFollower (uninitIndex : ℤ) : PurepursuitWaypointFollower :=
  { mCurrentState := { currentWaypointIndex := uninitIndex } }

/-- C7: immediately after construction, the lifecycle state is NONE, the
pursuit radius is strictly positive (default 1.0), the lookahead count is
at least 1 (default 8), and the follow-point staleness flag is true. -/
theorem followerState_initial (uninitIndex : ℤ) :
    (mkPurepursuitWaypointFollower uninitIndex).mCurrentState.stmState =
      WayPointFollowerSTMstates.NONE ∧
    (mkPurepursuitWaypointFollower uninitIndex).mCurrentState.purePursuitRadius = 1.0 ∧
    0 < (mkPurepursuitWaypointFollower uninitIndex).mCurrentState.purePursuitRadius ∧
    (mkPurepursuitWaypointFollower uninitIndex).mCurrentState.numWaypointsLookahead = 8 ∧
    1 ≤ (mkPurepursuitWaypointFollower uninitIndex).mCurrentState.numWaypointsLookahead ∧
    (mkPurepursuitWaypointFollower uninitIndex).mCurrentState.followPointTimedOut = true := by
  refine ⟨rfl, ?_, ?_, rfl, ?_, rfl⟩ <;>
    norm_num [mkPurepursuitWaypointFollower]

/-- C9: the tick timer period defaults to 50 ms and the follow-point
staleness timeout defaults to 1000 ms. -/
theorem followerTimer_defaults (uninitIndex : ℤ) :
    (mkPurepursuitWaypointFollower uninitIndex).mUpdateStatePeriod_ms = 50 ∧
    (mkPurepursuitWaypointFollower uninitIndex).mFollowPointTimeout_ms = 1000 :=
  ⟨rfl, rfl⟩

/-- The seven configuration options the specification lists for the
follower. -/
inductive ConfigOption
  | pursuitRadius
  | numWaypointsLookahead
  | repeatRoute
  | followPointSpeed
  | followPointDistance
  | followPointTimeoutMs
  | tickPeriodMs
deriving DecidableEq

/-- Which options have a public setter in the follower's declared
interface (purepursuitwaypointfollower.h lines 40-105 together with the
base class waypointfollower.h lines 14-38): `setPurePursuitRadius`
(line 51), `setRepeatRoute` (line 57), `setFollowPointSpeed` (line 54).
No public member sets `numWaypointsLookahead`, `followPointDistance`,
`mFollowPointTimeout_ms` (a `const` member) or `mUpdateStatePeriod_ms`. -/
def hasPublicSetter : ConfigOption → Bool
  | ConfigOption.pursuitRadius => true
  | ConfigOption.numWaypointsLookahead => false
  | ConfigOption.repeatRoute => true
  | ConfigOption.followPointSpeed => true
  | ConfigOption.followPointDistance => false
  | ConfigOption.followPointTimeoutMs => false
  | ConfigOption.tickPeriodMs => false

/-- C8 counterexample: `numWaypointsLookahead` has no public setter in the
follower's declared interface, so not every recognized option can be set
through a public operation. -/
theorem configSetter_counterexample :
    hasPublicSetter ConfigOption.numWaypointsLookahead = false := rfl

/-- C8 amended: of the seven recognized configuration options, exactly
`pursuitRadius`, `repeatRoute` and `followPointSpeed` have a public
setter in the follower's declared interface; `numWaypointsLookahead`,
`followPointDistance`, `followPointTimeoutMs` (a `const` member) and
`tickPeriodMs` have none. -/
theorem configSetter_surface :
    ∀ o : ConfigOption, hasPublicSetter o = true ↔
      (o = ConfigOption.pursuitRadius ∨ o = ConfigOption.repeatRoute ∨
        o = ConfigOption.followPointSpeed) := by
  intro o
  cases o <;> decide

/-- Geodetic coordinates, the `llh_t` type used by the vehicle
connection. -/
structure llh_t where
  latitude : ℝ
  longitude : ℝ
  height : ℝ

/-- Local metric coordinates, the `xyz_t` type returned by
`coordinateTransforms::llhToEnu`. -/
structure xyz_t where
  x : ℝ
  y : ℝ
  z : ℝ

/-- Result of `MavlinkPassthrough::send_command_long`; the source only
distinguishes `Success` from everything else. -/
inductive MavlinkPassthroughSendResult
  | Success
  | ConnectionError
  | CommandDenied
  | Timeout
deriving DecidableEq

/-- State of `MavsdkVehicleConnection` touched by `setHomeLlh`: the ENU
reference and the vehicle state's home position. -/
structure MavsdkVehicleConnectionState where
  mEnuReference : llh_t
  homePosition : PosPoint

/-- `MavsdkVehicleConnection::setHomeLlh` (mavsdkvehicleconnection.cpp
lines 159-183), as a state transformer: the MAV_CMD_DO_SET_HOME send
outcome and the `coordinateTransforms::llhToEnu` conversion (implemented
outside the embedded sources) are arguments; on `Success` the stored home
position's x, y and height are set to the converted coordinates (its yaw
untouched), otherwise the state is returned unchanged. -/
def setHomeLlh (llhToEnu : llh_t → llh_t → xyz_t)
    (sendCommandLongResult : MavlinkPassthroughSendResult)
    (conn : MavsdkVehicleConnectionState) (homeLlh : llh_t) :
    MavsdkVehicleConnectionState :=
  if sendCommandLongResult = MavlinkPassthroughSendResult.Success then
    let xyz := llhToEnu conn.mEnuReference homeLlh
    { conn with homePosition :=
        { conn.homePosition with x := xyz.x, y := xyz.y, height := xyz.z } }
  else conn

/-- C10: `setHomeLlh` leaves the stored home position (indeed the whole
connection state) unchanged when the MAV_CMD_DO_SET_HOME send does not
report success, and updates it to the ENU conversion of the requested
home exactly when the send reports success. -/
theorem setHomeLlh_updatesOnlyOnSuccess (llhToEnu : llh_t → llh_t → xyz_t)
    (r : MavlinkPassthroughSendResult)
    (conn : MavsdkVehicleConnectionState) (homeLlh : llh_t) :
    (r ≠ MavlinkPassthroughSendResult.Success →
      setHomeLlh llhToEnu r conn homeLlh = conn) ∧
    (r = MavlinkPassthroughSendResult.Success →
      (setHomeLlh llhToEnu r conn homeLlh).homePosition =
        { conn.homePosition with
            x := (llhToEnu conn.mEnuReference homeLlh).x,
            y := (llhToEnu conn.mEnuReference homeLlh).y,
            height := (llhToEnu conn.mEnuReference homeLlh).z }) := by
  constructor
  · intro h
    simp [setHomeLlh, h]
  · intro h
    simp [setHomeLlh, h]

/-- A concrete connection state used to instantiate `setHomeLlh`
theorems. -/
def sampleConnectionState : MavsdkVehicleConnectionState :=
  { mEnuReference := { latitude := 57.7, longitude := 11.9, height := 0 },
    homePosition := { x := 1, y := 2, height := 3, yaw := 4 } }

/-- A concrete stand-in for `coordinateTransforms::llhToEnu` used to
instantiate `setHomeLlh` theorems. -/
def sampleLlhToEnu : llh_t → llh_t → xyz_t :=
  fun _ home => { x := home.latitude, y := home.longitude, z := home.height }

/-- Witness for C10: a failed send leaves the sample state unchanged, and a
successful send stores the converted home position. -/
theorem setHomeLlh_updatesOnlyOnSuccess_witness :
    (setHomeLlh sampleLlhToEnu MavlinkPassthroughSendResult.ConnectionError
        sampleConnectionState { latitude := 10, longitude := 20, height := 30 } =
      sampleConnectionState) ∧
    ((setHomeLlh sampleLlhToEnu MavlinkPassthroughSendResult.Success
        sampleConnectionState { latitude := 10, longitude := 20, height := 30 }).homePosition =
      { sampleConnectionState.homePosition with
          x := (sampleLlhToEnu sampleConnectionState.mEnuReference
            { latitude := 10, longitude := 20, height := 30 }).x,
          y := (sampleLlhToEnu sampleConnectionState.mEnuReference
            { latitude := 10, longitude := 20, height := 30 }).y,
          height := (sampleLlhToEnu sampleConnectionState.mEnuReference
            { latitude := 10, longitude := 20, height := 30 }).z }) :=
  ⟨(setHomeLlh_updatesOnlyOnSuccess sampleLlhToEnu
      MavlinkPassthroughSendResult.ConnectionError sampleConnectionState
      { latitude := 10, longitude := 20, height := 30 }).1 (by decide),
   (setHomeLlh_updatesOnlyOnSuccess sampleLlhToEnu
      MavlinkPassthroughSendResult.Success sampleConnectionState
      { latitude := 10, longitude := 20, height := 30 }).2 rfl⟩
